import Mathlib

/-
Verification of the voice-assistant core (src/voice_assistance_advance/ai.py)
against its natural-language specification.

The Python code is shallowly embedded: text values become List Char, audio
sample buffers become List ℚ (float samples as exact rationals), wall-clock
times become Int, and the stateful classes become explicit state records with
pure transition functions.  External collaborators (the ASR engine, the TTS
engine, the audio device) are modelled as oracles passed in as parameters, and
observable side effects (playback, flag writes, sleeps) are recorded in
explicit event traces.
-/

namespace VoiceAssistance

/-! ## Python string primitives over List Char -/

/-- Python str.lower, as used at ai.py lines 243, 251 and 390.  ASCII case
folding via Char.toLower, which is what the wake words and commands of this
program use. -/
def lower (s : List Char) : List Char :=
  s.map Char.toLower

/-- Python str.strip, as used at ai.py lines 251, 390 and 400: removes
leading and trailing whitespace. -/
def strip (s : List Char) : List Char :=
  List.rdropWhile Char.isWhitespace (List.dropWhile Char.isWhitespace s)

/-- Python substring containment needle in haystack (the in operator on str),
used by WakeWordDetector.check at ai.py line 253 and by the dispatch loop at
line 409. -/
def containsSub (needle : List Char) : List Char → Bool
  | [] => needle.isEmpty
  | c :: rest => needle.isPrefixOf (c :: rest) || containsSub needle rest

/-- Recursion kernel of replaceAll, structurally recursive on a fuel
counter so that concrete inputs evaluate inside the kernel.  Every step
consumes at least one character of the text, so fuel equal to the length of
the text is always sufficient and the fuel-exhausted branch is unreachable
from replaceAll. -/
def replaceAllAux (old : List Char) : Nat → List Char → List Char
  | _, [] => []
  | 0, s => s
  | fuel + 1, c :: rest =>
    if old ≠ [] ∧ old.isPrefixOf (c :: rest) then
      replaceAllAux old fuel (rest.drop (old.length - 1))
    else
      c :: replaceAllAux old fuel rest

/-- Python text.replace(old, the empty string), as used at ai.py line 400:
removes every non-overlapping occurrence of old, scanning left to right. -/
def replaceAll (old s : List Char) : List Char :=
  replaceAllAux old s.length s

/-! ## Facts about the string primitives -/

theorem containsSub_iff_infix (w s : List Char) :
    containsSub w s = true ↔ w <:+: s := by
  induction s with
  | nil =>
    simp [containsSub, List.isEmpty_iff]
  | cons c rest ih =>
    simp [containsSub, ih, List.infix_cons_iff]

theorem char_ofNat_shift (n : Nat) (h1 : 65 ≤ n) (h2 : n ≤ 90) :
    (Char.ofNat (n + 32)).toNat = n + 32 ∧
      Char.isWhitespace (Char.ofNat (n + 32)) = false := by
  interval_cases n <;> exact ⟨rfl, rfl⟩

theorem isWhitespace_toNat (c : Char) (h : c.isWhitespace = true) :
    c.toNat = 32 ∨ c.toNat = 9 ∨ c.toNat = 13 ∨ c.toNat = 10 := by
  simp only [Char.isWhitespace, Bool.or_eq_true, decide_eq_true_eq] at h
  rcases h with (((rfl | rfl) | rfl) | rfl) <;> decide

theorem toLower_toLower (c : Char) :
    Char.toLower (Char.toLower c) = Char.toLower c := by
  by_cases h : 65 ≤ c.toNat ∧ c.toNat ≤ 90
  · have h2 := char_ofNat_shift c.toNat h.1 h.2
    have e1 : Char.toLower c = Char.ofNat (c.toNat + 32) := by
      simp only [Char.toLower, ge_iff_le]
      rw [if_pos h]
    rw [e1]
    simp only [Char.toLower, ge_iff_le, h2.1]
    rw [if_neg (by omega)]
  · have e1 : Char.toLower c = c := by
      simp only [Char.toLower, ge_iff_le]
      rw [if_neg h]
    rw [e1, e1]

theorem isWhitespace_toLower (c : Char) :
    Char.isWhitespace (Char.toLower c) = Char.isWhitespace c := by
  by_cases h : 65 ≤ c.toNat ∧ c.toNat ≤ 90
  · have h2 := char_ofNat_shift c.toNat h.1 h.2
    have e1 : Char.toLower c = Char.ofNat (c.toNat + 32) := by
      simp only [Char.toLower, ge_iff_le]
      rw [if_pos h]
    rw [e1, h2.2]
    rcases Bool.eq_false_or_eq_true c.isWhitespace with ht | hf
    · exfalso
      have := isWhitespace_toNat c ht
      omega
    · rw [hf]
  · have e1 : Char.toLower c = c := by
      simp only [Char.toLower, ge_iff_le]
      rw [if_neg h]
    rw [e1]

theorem lower_lower (s : List Char) : lower (lower s) = lower s := by
  induction s with
  | nil => rfl
  | cons c rest ih =>
    simp only [lower, List.map_cons] at ih ⊢
    rw [toLower_toLower, ih]

theorem map_dropWhile_comm (s : List Char) :
    lower (List.dropWhile Char.isWhitespace s) =
      List.dropWhile Char.isWhitespace (lower s) := by
  unfold lower
  rw [List.dropWhile_map]
  have hp : (Char.isWhitespace ∘ Char.toLower) = Char.isWhitespace :=
    funext isWhitespace_toLower
  rw [hp]

theorem map_rdropWhile_comm (s : List Char) :
    lower (List.rdropWhile Char.isWhitespace s) =
      List.rdropWhile Char.isWhitespace (lower s) := by
  unfold List.rdropWhile
  show lower (List.dropWhile Char.isWhitespace s.reverse).reverse = _
  have h1 : lower (List.dropWhile Char.isWhitespace s.reverse).reverse =
      (lower (List.dropWhile Char.isWhitespace s.reverse)).reverse := by
    simp [lower]
  rw [h1, map_dropWhile_comm]
  have h2 : lower s.reverse = (lower s).reverse := by
    simp [lower]
  rw [h2]

theorem lower_strip_comm (s : List Char) :
    lower (strip s) = strip (lower s) := by
  unfold strip
  rw [map_rdropWhile_comm, map_dropWhile_comm]

theorem dropWhile_head_false (p : Char → Bool) (s : List Char) :
    ∀ x xs, List.dropWhile p s = x :: xs → p x = false := by
  induction s with
  | nil =>
    intro x xs h
    simp at h
  | cons c rest ih =>
    intro x xs h
    rw [List.dropWhile_cons] at h
    by_cases hc : p c = true
    · rw [if_pos hc] at h
      exact ih x xs h
    · rw [if_neg hc] at h
      cases h
      simpa using hc

theorem dropWhile_rdropWhile (p : Char → Bool) (l : List Char)
    (hl : List.dropWhile p l = l) :
    List.dropWhile p (List.rdropWhile p l) = List.rdropWhile p l := by
  cases hr : List.rdropWhile p l with
  | nil => simp
  | cons x ys =>
    have hpre := List.rdropWhile_prefix p l
    rw [hr] at hpre
    obtain ⟨t, ht⟩ := hpre
    have hpx : p x = false := by
      apply dropWhile_head_false p l x (ys ++ t)
      rw [hl, ← ht]
      simp
    rw [List.dropWhile_cons, hpx]
    simp

theorem strip_strip (s : List Char) : strip (strip s) = strip s := by
  unfold strip
  rw [dropWhile_rdropWhile Char.isWhitespace (List.dropWhile Char.isWhitespace s)
    (List.dropWhile_idempotent Char.isWhitespace s)]
  exact List.rdropWhile_idempotent Char.isWhitespace (List.dropWhile Char.isWhitespace s)

theorem strip_lower_stable (s : List Char) :
    strip (lower (strip (lower s))) = strip (lower s) := by
  rw [lower_strip_comm, lower_lower, strip_strip]

/-! ## SignalGate: is_significant_audio and noise_gate (ai.py 133-152) -/

/-- Mean of the squared samples of a chunk, the quantity under the square
root in rms = np.sqrt(np.mean(audio ** 2)) at ai.py line 142 (division by a
zero length never occurs behind the length guard of the caller). -/
def rms_sq (audio : List ℚ) : ℚ :=
  (audio.map (fun x => x ^ 2)).sum / (audio.length : ℚ)

/-- Peak absolute amplitude np.max(np.abs(audio)) at ai.py line 143.  The
fold starts from 0, which agrees with the numpy maximum on every nonempty
chunk because absolute values are nonnegative (the caller guards the empty
chunk). -/
def peak_amp (audio : List ℚ) : ℚ :=
  (audio.map (fun x => |x|)).foldr max 0

/-- is_significant_audio (ai.py 133-144) with explicit thresholds.  The
source compares sqrt (rms_sq audio) > rms_threshold; since the square root
of a rational is not rational, the comparison is encoded equivalently as
rms_threshold < 0 or rms_threshold ^ 2 < rms_sq audio (the equivalence over
the reals is proved in sqrt_comparison below). -/
def is_significant_audio (audio : List ℚ) (rms_threshold peak_threshold : ℚ) : Bool :=
  if audio.length = 0 then false
  else
    (decide (rms_threshold < 0) || decide (rms_threshold ^ 2 < rms_sq audio))
      || decide (peak_threshold < peak_amp audio)

/-- noise_gate (ai.py 147-152): mask = np.abs(audio) > threshold and the
result is audio * mask, so each sample is multiplied by 1 when its absolute
value exceeds the threshold and by 0 otherwise. -/
def noise_gate (audio : List ℚ) (threshold : ℚ) : List ℚ :=
  audio.map (fun x => x * (if threshold < |x| then 1 else 0))

theorem sqrt_comparison (m t : ℚ) (ht : 0 ≤ t) :
    ((t : ℝ) < Real.sqrt ((m : ℚ) : ℝ)) ↔ t ^ 2 < m := by
  rw [Real.lt_sqrt (by exact_mod_cast ht)]
  constructor
  · intro h
    exact_mod_cast h
  · intro h
    exact_mod_cast h

theorem rms_sq_nonneg (audio : List ℚ) : 0 ≤ rms_sq audio := by
  unfold rms_sq
  apply div_nonneg
  · induction audio with
    | nil => simp
    | cons x xs ih =>
      simp only [List.map_cons, List.sum_cons]
      exact add_nonneg (sq_nonneg x) ih
  · exact_mod_cast Nat.zero_le audio.length

theorem peak_amp_nonneg (audio : List ℚ) : 0 ≤ peak_amp audio := by
  unfold peak_amp
  induction audio with
  | nil => simp
  | cons x xs ih =>
    simp only [List.map_cons, List.foldr_cons]
    exact le_max_of_le_right ih

/-! ## WakeWordDetector (ai.py 239-271) -/

structure WakeWordDetector where
  wake_word : List Char
  threshold : ℚ
  is_awake : Bool
  last_wake_time : Int
  timeout : Int
deriving DecidableEq

/-- WakeWordDetector.__init__ (ai.py 242-248): stores the lower-cased wake
word, starts asleep with last_wake_time 0. -/
def WakeWordDetector.init (wake_word : List Char) (threshold : ℚ) (timeout : Int) :
    WakeWordDetector :=
  { wake_word := lower wake_word, threshold := threshold,
    is_awake := false, last_wake_time := 0, timeout := timeout }

/-- WakeWordDetector.check (ai.py 250-267).  The wall-clock reads of
time.time() are passed in as now.  Returns the updated detector and the
Bool result of the method. -/
def WakeWordDetector.check (d : WakeWordDetector) (text : List Char) (now : Int) :
    WakeWordDetector × Bool :=
  let text_lower := strip (lower text)
  if containsSub d.wake_word text_lower then
    ({ d with is_awake := true, last_wake_time := now }, true)
  else if d.is_awake then
    if now - d.last_wake_time < d.timeout then (d, true)
    else ({ d with is_awake := false }, false)
  else (d, false)

/-- WakeWordDetector.reset (ai.py 269-271). -/
def WakeWordDetector.reset (d : WakeWordDetector) : WakeWordDetector :=
  { d with is_awake := false, last_wake_time := 0 }

/-! ## Command table and dispatch (ai.py 295-303 and 389-419) -/

inductive Skill where
  | tellJoke
  | tellTime
  | exitSkill
  | sleepSkill
deriving DecidableEq

/-- The command_map dict of ai.py 295-303 as an ordered association list
(Python dicts preserve insertion order for iteration). -/
def command_map : List (List Char × Skill) :=
  [ (("joke").toList, Skill.tellJoke),
    (("time").toList, Skill.tellTime),
    (("date").toList, Skill.tellTime),
    (("stop").toList, Skill.exitSkill),
    (("exit").toList, Skill.exitSkill),
    (("goodbye").toList, Skill.exitSkill),
    (("sleep").toList, Skill.sleepSkill) ]

/-- The observable outcome of one handle_command call: each constructor is
one return path of ai.py 389-419.  ignoredEmpty: empty text (line 392);
notAwake: wake check failed (line 398); silentReturn: the bare return at
line 402 that produces no speech; acknowledge: the listening acknowledgment
spoken at line 405; invoked: exactly one skill ran via the dispatch loop
(lines 408-416); fallback: the spoken fallback of line 419. -/
inductive HCResult where
  | ignoredEmpty
  | notAwake
  | silentReturn
  | acknowledge
  | invoked (trigger : List Char) (s : Skill)
  | fallback (command_text : List Char)
deriving DecidableEq

/-- The for-loop of ai.py 408-416 followed by the fallback of line 419:
walks the table in order, invokes the first trigger contained in
command_text and stops. -/
def dispatchLoop : List (List Char × Skill) → List Char → HCResult
  | [], command_text => HCResult.fallback command_text
  | (trigger, skill) :: rest, command_text =>
    if containsSub trigger command_text then HCResult.invoked trigger skill
    else dispatchLoop rest command_text

/-- Spec-side formulation of dispatch for the refinement claim C4: the first
table entry (List.find?) whose trigger is contained in the command text is
invoked; if none matches, the fallback response is produced. -/
def firstMatchDispatch (table : List (List Char × Skill)) (command_text : List Char) :
    HCResult :=
  match table.find? (fun p => containsSub p.1 command_text) with
  | some p => HCResult.invoked p.1 p.2
  | none => HCResult.fallback command_text

/-- VoiceAssistant.handle_command (ai.py 389-419).  wake_word is the module
constant WAKE_WORD used at line 400; the detector d carries the lower-cased
copy stored by the wake-word detector. -/
def handle_command (wake_word : List Char) (d : WakeWordDetector)
    (text0 : List Char) (now : Int) : WakeWordDetector × HCResult :=
  let text := strip (lower text0)
  if text = [] then (d, HCResult.ignoredEmpty)
  else
    match d.check text now with
    | (d1, ok) =>
      if ok = false then (d1, HCResult.notAwake)
      else
        let command_text := strip (replaceAll wake_word text)
        if command_text = [] ∧ text ≠ wake_word then (d1, HCResult.silentReturn)
        else if command_text = [] ∨ command_text = wake_word then (d1, HCResult.acknowledge)
        else (d1, dispatchLoop command_map command_text)

/-! ## PiperTTS: queue, worker, speak, wait_until_done, shutdown
    (ai.py 155-236), modelled as a state record plus event traces. -/

/-- Observable events of the synthesis side.  setSpeaking / clearSpeaking are
the writes to the shared is_speaking flag (ai.py 187, 189, 196);
playbackStart / playbackEnd delimit one sd.play + sd.wait playback of one
request (215-216); synthErrorLogged is the caught and logged TTS failure
(218-219); stopSignal is the Supervisor stop write keep_running = False
(381). -/
inductive TEv where
  | setSpeaking
  | clearSpeaking
  | playbackStart (text : List Char)
  | playbackEnd (text : List Char)
  | synthErrorLogged (text : List Char)
  | stopSignal
deriving DecidableEq

/-- PiperTTS._speak_blocking (ai.py 198-219): synthesizes and plays on the
calling thread.  ok abstracts whether the external synthesize call succeeds;
on failure the exception is caught inside the method and only logged, so the
method always returns normally. -/
def speakBlocking (ok : Bool) (text : List Char) : List TEv :=
  if ok then [TEv.playbackStart text, TEv.playbackEnd text]
  else [TEv.synthErrorLogged text]

/-- The mutable state of one PiperTTS instance: the speech queue (none is
the shutdown sentinel enqueued by shutdown at ai.py 235), the shared
is_speaking flag, and the shutdown_flag event. -/
structure PiperTTSState where
  speech_queue : List (Option (List Char))
  is_speaking : Bool
  shutdown_flag : Bool
deriving DecidableEq

/-- PiperTTS.speak (ai.py 221-225): blocking calls run _speak_blocking
directly on the calling thread; non-blocking calls only enqueue.  Returns the
new state and the events produced on the calling thread. -/
def PiperTTSState.speak (st : PiperTTSState) (text : List Char) (blocking : Bool)
    (ok : Bool) : PiperTTSState × List TEv :=
  if blocking then (st, speakBlocking ok text)
  else ({ st with speech_queue := st.speech_queue ++ [some text] }, [])

/-- PiperTTS.shutdown (ai.py 232-236): sets shutdown_flag and enqueues the
none sentinel (the bounded join of the worker thread has no observable
effect on this state). -/
def PiperTTSState.shutdownTTS (st : PiperTTSState) : PiperTTSState :=
  { st with shutdown_flag := true, speech_queue := st.speech_queue ++ [none] }

/-- One iteration of the _speech_worker loop (ai.py 179-196).  The returned
Bool says whether the worker loop continues: it exits when shutdown_flag is
set (loop condition, line 181) or when it dequeues the none sentinel (line
184).  An empty queue is the queue.Empty timeout path (192-193).  For a real
request the worker sets is_speaking, runs _speak_blocking and clears
is_speaking; the flag write ordering is visible in the event list and the
flag is clear again at the end of the iteration whether or not synthesis
succeeded. -/
def workerIter (ok : List Char → Bool) (st : PiperTTSState) :
    PiperTTSState × List TEv × Bool :=
  if st.shutdown_flag then (st, [], false)
  else
    match st.speech_queue with
    | [] => (st, [], true)
    | none :: rest => ({ st with speech_queue := rest }, [], false)
    | some t :: rest =>
      ({ st with speech_queue := rest, is_speaking := false },
        [TEv.setSpeaking] ++ speakBlocking (ok t) t ++ [TEv.clearSpeaking], true)

/-- The drain observed by wait_until_done (ai.py 227-230): the worker
processes queued requests in FIFO order until the queue is empty.  Returns
the produced events and the part of the queue left unprocessed; processing
stops at a shutdown sentinel (after which the worker has exited, so nothing
further is played). -/
def drainRun (ok : List Char → Bool) : List (Option (List Char)) →
    List TEv × List (Option (List Char))
  | [] => ([], [])
  | none :: rest => ([], none :: rest)
  | some t :: rest =>
    let r := drainRun ok rest
    (([TEv.setSpeaking] ++ speakBlocking (ok t) t ++ [TEv.clearSpeaking]) ++ r.1, r.2)

/-- The farewell text of _skill_exit (ai.py 379). -/
def farewellText : List Char :=
  ("goodbye! shutting down now.").toList

/-- VoiceAssistant._skill_exit (ai.py 377-381): enqueue the farewell
(non-blocking speak), wait_until_done (queue drained and playback finished),
then set keep_running to false.  queue0 is the speech queue content at entry;
the result is the full event trace, the remaining queue, and the final value
of keep_running. -/
def skill_exit (ok : List Char → Bool) (queue0 : List (Option (List Char))) :
    List TEv × List (Option (List Char)) × Bool :=
  let q1 := queue0 ++ [some farewellText]
  let r := drainRun ok q1
  (r.1 ++ [TEv.stopSignal], r.2, false)

/-! ## Supervisor: the listen loop (ai.py 463-534) -/

/-- Observable events of one Supervisor iteration: sig_checked is a call to
is_significant_audio (line 498), gated a call to noise_gate (line 504),
transcribed a call to transcribe_audio and hence to the external engine
(line 509), handled the dispatch of one nonempty stripped segment to
handle_command (line 514), slept the error-recovery backoff sleep (line
530). -/
inductive Ev where
  | sig_checked
  | gated
  | transcribed
  | handled (text : List Char)
  | slept
deriving DecidableEq

/-- VoiceAssistant.transcribe_audio (ai.py 421-461).  engineResult is the
segment-text list returned by the external ASR engine, none meaning the
engine call raised: the exception is caught at lines 459-461 and an empty
list is returned, so the caller never sees the failure. -/
def transcribe_audio (engineResult : Option (List (List Char))) : List (List Char) :=
  match engineResult with
  | some segs => segs
  | none => []

/-- The chunk-processing block of listen (ai.py 496-519), entered once the
accumulated buffer reaches a full chunk.  speaking is the value of
tts.is_speaking read at line 507; engine maps the gated buffer to the ASR
result (none = the engine raised).  Returns the events of this block and the
audio buffer left afterwards (always cleared). -/
def processChunk (speaking : Bool) (audio_buffer : List ℚ)
    (rms_threshold peak_threshold gate_threshold : ℚ)
    (engine : List ℚ → Option (List (List Char))) : List Ev × List ℚ :=
  if is_significant_audio audio_buffer rms_threshold peak_threshold = false then
    ([Ev.sig_checked], [])
  else
    let gated := noise_gate audio_buffer gate_threshold
    if speaking = false then
      let segs := transcribe_audio (engine gated)
      ([Ev.sig_checked, Ev.gated, Ev.transcribed]
        ++ ((segs.map strip).filter (fun t => !t.isEmpty)).map Ev.handled, [])
    else
      ([Ev.sig_checked, Ev.gated], [])

/-- The bounded-restart bookkeeping of the Supervisor (ai.py 288-289). -/
structure RecoveryState where
  restart_count : Nat
  max_restarts : Nat
deriving DecidableEq

inductive LoopControl where
  | keepGoing
  | fatal
deriving DecidableEq

/-- One iteration of the while loop of listen (ai.py 491-534).  excRaised
models an exception escaping the iteration body and reaching the handler at
lines 524-534; a transcription-engine failure does not escape (it is caught
inside transcribe_audio at 459-461), so a transcription glitch is the case
excRaised = false with engine returning none.  When an exception escapes
and the restart budget is not exhausted, the counter is incremented and the
loop sleeps the backoff delay and continues; once exhausted, the exception
is re-raised (fatal). -/
def listen_iteration (r : RecoveryState) (speaking : Bool) (audio_buffer : List ℚ)
    (rms_threshold peak_threshold gate_threshold : ℚ)
    (engine : List ℚ → Option (List (List Char))) (excRaised : Bool) :
    RecoveryState × List Ev × LoopControl :=
  if excRaised then
    if r.restart_count < r.max_restarts then
      ({ r with restart_count := r.restart_count + 1 }, [Ev.slept], LoopControl.keepGoing)
    else (r, [], LoopControl.fatal)
  else
    let p := processChunk speaking audio_buffer rms_threshold peak_threshold
      gate_threshold engine
    (r, p.1, LoopControl.keepGoing)

/-! ## Additional supporting lemmas -/

theorem sumSq_zero : ∀ (audio : List ℚ), (∀ x ∈ audio, x = 0) →
    (audio.map (fun x => x ^ 2)).sum = 0 := by
  intro audio
  induction audio with
  | nil =>
    intro _
    rfl
  | cons x xs ih =>
    intro h
    simp only [List.map_cons, List.sum_cons]
    rw [h x (List.mem_cons_self x xs), ih (fun y hy => h y (List.mem_cons_of_mem x hy))]
    simp

theorem peak_amp_zero : ∀ (audio : List ℚ), (∀ x ∈ audio, x = 0) →
    peak_amp audio = 0 := by
  intro audio
  induction audio with
  | nil =>
    intro _
    rfl
  | cons x xs ih =>
    intro h
    have hx := h x (List.mem_cons_self x xs)
    have hxs := ih (fun y hy => h y (List.mem_cons_of_mem x hy))
    unfold peak_amp at hxs ⊢
    simp only [List.map_cons, List.foldr_cons]
    rw [hx, hxs]
    simp

/-! ## Claim theorems -/

/-- Claim C1: WakeWordDetector.check is the two-state machine over
is_awake and last_wake_time described by the spec: a contained activation
phrase (in the lower-cased, stripped text) awakens the detector, stamps
last_wake_time with the current time and returns true; with the phrase
absent, an awake detector within the timeout returns true with the state
(and in particular the timer) unchanged; with the phrase absent and the
timeout elapsed the state ends asleep and check returns false; an asleep
detector with the phrase absent returns false with the state unchanged. -/
theorem C1_wake_word_state_machine (d : WakeWordDetector) (text : List Char) (now : Int) :
    (containsSub d.wake_word (strip (lower text)) = true →
      (d.check text now).1.is_awake = true ∧
      (d.check text now).1.last_wake_time = now ∧
      (d.check text now).2 = true)
  ∧ (containsSub d.wake_word (strip (lower text)) = false →
      d.is_awake = true → now - d.last_wake_time < d.timeout →
      (d.check text now).2 = true ∧ (d.check text now).1 = d)
  ∧ (containsSub d.wake_word (strip (lower text)) = false →
      d.timeout ≤ now - d.last_wake_time →
      (d.check text now).1.is_awake = false ∧ (d.check text now).2 = false)
  ∧ (containsSub d.wake_word (strip (lower text)) = false →
      d.is_awake = false →
      (d.check text now).2 = false ∧ (d.check text now).1 = d) := by
  refine ⟨?_, ?_, ?_, ?_⟩
  · intro h
    simp [WakeWordDetector.check, h]
  · intro h ha hlt
    simp [WakeWordDetector.check, h, ha, hlt]
  · intro h hge
    by_cases ha : d.is_awake = true
    · simp [WakeWordDetector.check, h, ha, not_lt.mpr hge]
    · simp only [Bool.not_eq_true] at ha
      simp [WakeWordDetector.check, h, ha]
  · intro h ha
    simp [WakeWordDetector.check, h, ha]

/-- Witness for C1 at a concrete input: phrase assistant, utterance
containing it, current time 5. -/
theorem C1_witness :
    containsSub (WakeWordDetector.init (("assistant").toList) 0 10).wake_word
      (strip (lower (("hello assistant").toList))) = true
  ∧ ((WakeWordDetector.init (("assistant").toList) 0 10).check
      (("hello assistant").toList) 5).1.is_awake = true
  ∧ ((WakeWordDetector.init (("assistant").toList) 0 10).check
      (("hello assistant").toList) 5).1.last_wake_time = 5
  ∧ ((WakeWordDetector.init (("assistant").toList) 0 10).check
      (("hello assistant").toList) 5).2 = true :=
  ⟨by decide,
    (C1_wake_word_state_machine (WakeWordDetector.init (("assistant").toList) 0 10)
      (("hello assistant").toList) 5).1 (by decide)⟩

/-- Counterexample to claim C2 as stated: while is_speaking is true, the
claim says neither is_significant_audio nor noise_gate is called for a full
chunk; the code (ai.py 496-507) runs the significance check and the noise
gate before consulting is_speaking, so both events occur in the trace. -/
theorem C2_counterexample :
    Ev.sig_checked ∈
      (processChunk true [(1 : ℚ)] (15/1000) (1/25) (1/100) (fun _ => some [])).1
  ∧ Ev.gated ∈
      (processChunk true [(1 : ℚ)] (15/1000) (1/25) (1/100) (fun _ => some [])).1 := by
  have hsig : is_significant_audio [(1 : ℚ)] (15/1000) (1/25) = true := by
    unfold is_significant_audio rms_sq peak_amp
    norm_num
  have hp : (processChunk true [(1 : ℚ)] (15/1000) (1/25) (1/100) (fun _ => some [])).1
      = [Ev.sig_checked, Ev.gated] := by
    unfold processChunk
    rw [hsig]
    simp
  refine ⟨?_, ?_⟩ <;> rw [hp] <;> simp

/-- Claim C2 (amended): in a Supervisor iteration with a full chunk ready
while is_speaking is true, the chunk is still passed through the
significance check and (when significant) the noise gate, but the
transcription engine is never called, no segment is handled, and the chunk
is discarded (buffer cleared). -/
theorem C2_speaking_skips_transcription (audio_buffer : List ℚ)
    (rms_threshold peak_threshold gate_threshold : ℚ)
    (engine : List ℚ → Option (List (List Char))) :
    Ev.transcribed ∉
      (processChunk true audio_buffer rms_threshold peak_threshold gate_threshold engine).1
  ∧ (∀ t, Ev.handled t ∉
      (processChunk true audio_buffer rms_threshold peak_threshold gate_threshold engine).1)
  ∧ (processChunk true audio_buffer rms_threshold peak_threshold gate_threshold engine).2 = []
  ∧ (is_significant_audio audio_buffer rms_threshold peak_threshold = true →
      Ev.gated ∈
        (processChunk true audio_buffer rms_threshold peak_threshold gate_threshold engine).1) := by
  by_cases hs : is_significant_audio audio_buffer rms_threshold peak_threshold = false
  · refine ⟨?_, ?_, ?_, ?_⟩
    · simp [processChunk, hs]
    · intro t
      simp [processChunk, hs]
    · simp [processChunk, hs]
    · intro htrue
      rw [htrue] at hs
      simp at hs
  · refine ⟨?_, ?_, ?_, ?_⟩
    · simp [processChunk, hs]
    · intro t
      simp [processChunk, hs]
    · simp [processChunk, hs]
    · intro _
      simp [processChunk, hs]

/-- Witness for C2 (amended) at a concrete significant chunk. -/
theorem C2_witness :
    is_significant_audio [(1 : ℚ)] (15/1000) (1/25) = true
  ∧ Ev.gated ∈
      (processChunk true [(1 : ℚ)] (15/1000) (1/25) (1/100) (fun _ => some [])).1 :=
  ⟨by unfold is_significant_audio rms_sq peak_amp; norm_num,
    (C2_speaking_skips_transcription [(1 : ℚ)] (15/1000) (1/25) (1/100)
      (fun _ => some [])).2.2.2
      (by unfold is_significant_audio rms_sq peak_amp; norm_num)⟩

/-- Counterexample to claim C3 as stated: a speak request issued with
blocking = true plays on the calling thread (ai.py 221-223) without the
shared is_speaking flag ever being set: the trace of the call contains the
playback but no setSpeaking event, and the flag stays false in the state. -/
theorem C3_counterexample :
    TEv.setSpeaking ∉
      (PiperTTSState.speak ⟨[], false, false⟩ (("hi").toList) true true).2
  ∧ TEv.playbackStart (("hi").toList) ∈
      (PiperTTSState.speak ⟨[], false, false⟩ (("hi").toList) true true).2
  ∧ (PiperTTSState.speak ⟨[], false, false⟩ (("hi").toList) true true).1.is_speaking = false := by
  decide

/-- Claim C3 (amended): for every speak request processed by the background
worker, is_speaking is set before synthesis and playback begin and cleared
after they complete, regardless of success or failure of the synthesis call
(the iteration ends with the flag clear); a speak(text, blocking = true)
call, by contrast, plays on the calling thread without setting the flag
(see the counterexample). -/
theorem C3_worker_flag_envelope (ok : List Char → Bool) (st : PiperTTSState)
    (t : List Char) (rest : List (Option (List Char)))
    (hsd : st.shutdown_flag = false) (hq : st.speech_queue = some t :: rest) :
    ((workerIter ok st).2.1).head? = some TEv.setSpeaking
  ∧ ((workerIter ok st).2.1).getLast? = some TEv.clearSpeaking
  ∧ (workerIter ok st).1.is_speaking = false
  ∧ (workerIter ok st).2.2 = true := by
  cases hok : ok t <;> simp [workerIter, hsd, hq, speakBlocking, hok]

/-- Witness for C3 (amended): one queued request, with the worker alive. -/
theorem C3_witness :
    (⟨[some (("hi").toList)], false, false⟩ : PiperTTSState).shutdown_flag = false
  ∧ (⟨[some (("hi").toList)], false, false⟩ : PiperTTSState).speech_queue
      = some (("hi").toList) :: []
  ∧ (((workerIter (fun _ => true) ⟨[some (("hi").toList)], false, false⟩).2.1).head?
        = some TEv.setSpeaking
    ∧ ((workerIter (fun _ => true) ⟨[some (("hi").toList)], false, false⟩).2.1).getLast?
        = some TEv.clearSpeaking
    ∧ (workerIter (fun _ => true) ⟨[some (("hi").toList)], false, false⟩).1.is_speaking = false
    ∧ (workerIter (fun _ => true) ⟨[some (("hi").toList)], false, false⟩).2.2 = true) :=
  ⟨rfl, rfl,
    C3_worker_flag_envelope (fun _ => true) ⟨[some (("hi").toList)], false, false⟩
      (("hi").toList) [] rfl rfl⟩

/-- Claim C4: command dispatch is first-match-wins over the table in its
defined insertion order: the dispatch loop of handle_command equals the
List.find?-based first-match specification for every table and command
text (so exactly the first matching entry is invoked and at most one
handler runs, with the fallback response produced when nothing matches);
moreover the spec example holds: tell me a joke please invokes the joke
skill. -/
theorem C4_first_match_dispatch :
    (∀ (table : List (List Char × Skill)) (command_text : List Char),
      dispatchLoop table command_text = firstMatchDispatch table command_text)
  ∧ dispatchLoop command_map (("tell me a joke please").toList)
      = HCResult.invoked (("joke").toList) Skill.tellJoke := by
  constructor
  · intro table command_text
    induction table with
    | nil =>
      simp [dispatchLoop, firstMatchDispatch]
    | cons p rest ih =>
      obtain ⟨tr, sk⟩ := p
      by_cases h : containsSub tr command_text = true
      · have e : List.find? (fun q => containsSub q.1 command_text) ((tr, sk) :: rest)
            = some (tr, sk) := List.find?_cons_of_pos _ h
        simp [dispatchLoop, firstMatchDispatch, h, e]
      · have hfalse : containsSub tr command_text = false := by
          simpa using h
        have e : List.find? (fun q => containsSub q.1 command_text) ((tr, sk) :: rest)
            = List.find? (fun q => containsSub q.1 command_text) rest :=
          List.find?_cons_of_neg _ (by simp [hfalse])
        simp only [dispatchLoop, hfalse, if_neg]
        rw [ih]
        simp [firstMatchDispatch, e]
  · decide

/-- Counterexample to claim C5 as stated: the claim zeroes exactly the
samples with absolute value strictly below the threshold and keeps all
others; the code mask is np.abs(audio) > threshold, which also zeroes a
sample whose absolute value equals the threshold.  At input [1] with
threshold 1 the sample is not below the threshold, yet the output is [0],
not [1]. -/
theorem C5_counterexample :
    ¬ (|(1 : ℚ)| < 1)
  ∧ noise_gate [(1 : ℚ)] 1 = [0]
  ∧ noise_gate [(1 : ℚ)] 1 ≠ [(1 : ℚ)] := by
  refine ⟨by simp, ?_, ?_⟩ <;> simp [noise_gate]

/-- Claim C5 (amended): noise_gate returns a chunk of identical length in
which every sample whose absolute value is at most the threshold (not
strictly below it) is zeroed and every sample whose absolute value exceeds
the threshold is kept unchanged; every output sample is 0 or the
corresponding input sample, and a zero input sample never produces a
nonzero output sample. -/
theorem C5_noise_gate (audio : List ℚ) (threshold : ℚ) :
    (noise_gate audio threshold).length = audio.length
  ∧ (∀ (i : Nat) (x : ℚ), audio[i]? = some x →
      ((|x| ≤ threshold → (noise_gate audio threshold)[i]? = some 0)
      ∧ (threshold < |x| → (noise_gate audio threshold)[i]? = some x)
      ∧ ((noise_gate audio threshold)[i]? = some 0
          ∨ (noise_gate audio threshold)[i]? = some x)
      ∧ (x = 0 → (noise_gate audio threshold)[i]? = some 0))) := by
  constructor
  · simp [noise_gate]
  · intro i x hx
    have hmap : (noise_gate audio threshold)[i]?
        = some (x * (if threshold < |x| then 1 else 0)) := by
      simp [noise_gate, hx]
    refine ⟨?_, ?_, ?_, ?_⟩
    · intro hle
      rw [hmap, if_neg (not_lt.mpr hle), mul_zero]
    · intro hlt
      rw [hmap, if_pos hlt, mul_one]
    · by_cases hc : threshold < |x|
      · right
        rw [hmap, if_pos hc, mul_one]
      · left
        rw [hmap, if_neg hc, mul_zero]
    · intro hx0
      rw [hmap, hx0]
      simp

/-- Witness for C5 (amended) at a concrete input. -/
theorem C5_witness :
    (([(1 : ℚ), 0])[0]? = some 1)
  ∧ ((0 : ℚ) < |(1 : ℚ)|)
  ∧ (noise_gate [(1 : ℚ), 0] 0)[0]? = some 1 :=
  ⟨rfl, by simp,
    ((C5_noise_gate [(1 : ℚ), 0] 0).2 0 1 rfl).2.1 (by simp)⟩

/-- Claim C6: for nonnegative thresholds, is_significant_audio returns true
iff the chunk is nonempty and its root-mean-square exceeds the RMS
threshold or its peak absolute amplitude exceeds the peak threshold; it is
false on the empty chunk and false on any all-zero chunk. -/
theorem C6_is_significant (audio : List ℚ) (rms_threshold peak_threshold : ℚ)
    (hrt : 0 ≤ rms_threshold) (hpt : 0 ≤ peak_threshold) :
    (is_significant_audio audio rms_threshold peak_threshold = true ↔
      (audio ≠ [] ∧
        ((rms_threshold : ℝ) < Real.sqrt ((rms_sq audio : ℚ) : ℝ)
          ∨ peak_threshold < peak_amp audio)))
  ∧ is_significant_audio [] rms_threshold peak_threshold = false
  ∧ ((∀ x ∈ audio, x = 0) →
      is_significant_audio audio rms_threshold peak_threshold = false) := by
  refine ⟨?_, by simp [is_significant_audio], ?_⟩
  · by_cases hlen : audio.length = 0
    · have hnil : audio = [] := List.length_eq_zero.mp hlen
      simp [is_significant_audio, hlen, hnil]
    · have hne : audio ≠ [] := by
        intro hc
        rw [hc] at hlen
        simp at hlen
      rw [sqrt_comparison (rms_sq audio) rms_threshold hrt]
      simp [is_significant_audio, hlen, hne, not_lt.mpr hrt]
  · intro hall
    unfold is_significant_audio
    by_cases hlen : audio.length = 0
    · simp [hlen]
    · have hrms : rms_sq audio = 0 := by
        unfold rms_sq
        rw [sumSq_zero audio hall, zero_div]
      have hpk : peak_amp audio = 0 := peak_amp_zero audio hall
      simp [hlen, hrms, hpk, not_lt.mpr hrt, not_lt.mpr hpt,
        not_lt.mpr (sq_nonneg rms_threshold)]

/-- Witness for C6 at the default configuration thresholds and an all-zero
two-sample chunk. -/
theorem C6_witness :
    (0 : ℚ) ≤ 15/1000
  ∧ (0 : ℚ) ≤ 1/25
  ∧ is_significant_audio [(0 : ℚ), 0] (15/1000) (1/25) = false :=
  ⟨by norm_num, by norm_num,
    (C6_is_significant [(0 : ℚ), 0] (15/1000) (1/25) (by norm_num) (by norm_num)).2.2
      (by simp)⟩

theorem drainRun_no_sentinel (ok : List Char → Bool) :
    ∀ (q : List (Option (List Char))), (∀ x ∈ q, x ≠ none) →
      (drainRun ok q).2 = [] ∧ TEv.stopSignal ∉ (drainRun ok q).1 := by
  intro q
  induction q with
  | nil =>
    intro _
    exact ⟨rfl, by simp [drainRun]⟩
  | cons o rest ih =>
    intro h
    cases o with
    | none => exact absurd rfl (h none (List.mem_cons_self _ _))
    | some t =>
      have hr := ih (fun y hy => h y (List.mem_cons_of_mem _ hy))
      refine ⟨by simp [drainRun, hr.1], ?_⟩
      cases hok : ok t <;> simp [drainRun, speakBlocking, hok, hr.2]

theorem drainRun_append_last (ok : List Char → Bool) :
    ∀ (q : List (Option (List Char))) (t : List Char), (∀ x ∈ q, x ≠ none) →
      (drainRun ok (q ++ [some t])).1 =
        (drainRun ok q).1 ++
          ([TEv.setSpeaking] ++ speakBlocking (ok t) t ++ [TEv.clearSpeaking])
      ∧ (drainRun ok (q ++ [some t])).2 = [] := by
  intro q t
  induction q with
  | nil =>
    intro _
    simp [drainRun]
  | cons o rest ih =>
    intro h
    cases o with
    | none => exact absurd rfl (h none (List.mem_cons_self _ _))
    | some u =>
      have hr := ih (fun y hy => h y (List.mem_cons_of_mem _ hy))
      constructor
      · simp only [List.cons_append, drainRun, List.append_eq]
        rw [hr.1]
        simp [List.append_assoc]
      · simp [drainRun, hr.2]

/-- Claim C7: the exit handler first enqueues the farewell speech request,
then drains the queue via wait_until_done, and only afterwards emits the
stop signal for the Supervisor loop: in the produced trace the stop signal
is the final event, occurs nowhere earlier, and the farewell playback has
completed before it; the queue is empty and keep_running is false at the
end.  Hypotheses: the queue holds no shutdown sentinel yet (shutdown has
not been called) and the farewell synthesis succeeds (otherwise there is no
playback to order against). -/
theorem C7_exit_after_farewell (ok : List Char → Bool)
    (queue0 : List (Option (List Char)))
    (hq : ∀ x ∈ queue0, x ≠ none) (hok : ok farewellText = true) :
    (∃ pre, (skill_exit ok queue0).1 = pre ++ [TEv.stopSignal]
      ∧ TEv.stopSignal ∉ pre
      ∧ TEv.playbackEnd farewellText ∈ pre)
  ∧ (skill_exit ok queue0).2.1 = []
  ∧ (skill_exit ok queue0).2.2 = false := by
  have happ := drainRun_append_last ok queue0 farewellText hq
  have hns := drainRun_no_sentinel ok queue0 hq
  refine ⟨⟨(drainRun ok (queue0 ++ [some farewellText])).1, ?_, ?_, ?_⟩, ?_, rfl⟩
  · simp [skill_exit]
  · rw [happ.1]
    simp [speakBlocking, hok, hns.2]
  · rw [happ.1]
    simp [speakBlocking, hok]
  · simp [skill_exit, happ.2]

/-- Witness for C7: one ordinary pending request ahead of the farewell. -/
theorem C7_witness :
    (∀ x ∈ [some (("hello").toList)], x ≠ (none : Option (List Char)))
  ∧ (fun _ => true) farewellText = true
  ∧ ((∃ pre, (skill_exit (fun _ => true) [some (("hello").toList)]).1
        = pre ++ [TEv.stopSignal]
      ∧ TEv.stopSignal ∉ pre
      ∧ TEv.playbackEnd farewellText ∈ pre)
    ∧ (skill_exit (fun _ => true) [some (("hello").toList)]).2.1 = []
    ∧ (skill_exit (fun _ => true) [some (("hello").toList)]).2.2 = false) :=
  ⟨by decide, rfl,
    C7_exit_after_farewell (fun _ => true) [some (("hello").toList)] (by decide) rfl⟩

/-- Counterexample to claim C8 as stated: a transcription glitch (the ASR
engine raising) is caught inside transcribe_audio (ai.py 459-461), which
returns an empty segment list; the iteration completes normally, the
restart counter is not incremented and no backoff sleep happens, contrary
to the claim that every failure, including a transcription glitch, goes
through the bounded-retry path. -/
theorem C8_counterexample :
    (listen_iteration ⟨0, 3⟩ false [(1 : ℚ)] 0 0 0 (fun _ => none) false).1.restart_count = 0
  ∧ Ev.slept ∉ (listen_iteration ⟨0, 3⟩ false [(1 : ℚ)] 0 0 0 (fun _ => none) false).2.1
  ∧ (listen_iteration ⟨0, 3⟩ false [(1 : ℚ)] 0 0 0 (fun _ => none) false).2.2
      = LoopControl.keepGoing
  ∧ Ev.transcribed ∈ (listen_iteration ⟨0, 3⟩ false [(1 : ℚ)] 0 0 0 (fun _ => none) false).2.1 := by
  have hsig : is_significant_audio [(1 : ℚ)] 0 0 = true := by
    unfold is_significant_audio rms_sq peak_amp
    norm_num
  have hp : (processChunk false [(1 : ℚ)] 0 0 0 (fun _ => none)).1
      = [Ev.sig_checked, Ev.gated, Ev.transcribed] := by
    unfold processChunk
    rw [hsig]
    simp [transcribe_audio]
  have hl : listen_iteration ⟨0, 3⟩ false [(1 : ℚ)] 0 0 0 (fun _ => none) false
      = (⟨0, 3⟩, [Ev.sig_checked, Ev.gated, Ev.transcribed], LoopControl.keepGoing) := by
    unfold listen_iteration
    rw [if_neg (by simp)]
    simp [hp]
  rw [hl]
  refine ⟨rfl, by simp, rfl, by simp⟩

/-- Helper: the chunk-processing block never emits a backoff-sleep event. -/
theorem slept_notin_processChunk (speaking : Bool) (audio_buffer : List ℚ)
    (a b c : ℚ) (engine : List ℚ → Option (List (List Char))) :
    Ev.slept ∉ (processChunk speaking audio_buffer a b c engine).1 := by
  unfold processChunk
  by_cases hs : is_significant_audio audio_buffer a b = false
  · rw [if_pos hs]
    simp
  · rw [if_neg hs]
    cases speaking
    · simp
    · simp

/-- Claim C8 (amended): exceptions that escape the loop body are recovered
via bounded retry with fixed backoff: below the budget the restart counter
is incremented, the loop sleeps and continues; at the budget the error is
re-raised as fatal.  A transcription glitch, however, never reaches this
path: it is caught inside transcribe_audio, the iteration completes with
the recovery state unchanged and no backoff sleep. -/
theorem C8_bounded_retry (r : RecoveryState) (speaking : Bool)
    (audio_buffer : List ℚ) (a b c : ℚ)
    (engine : List ℚ → Option (List (List Char))) :
    (listen_iteration r speaking audio_buffer a b c (fun _ => none) false).1 = r
  ∧ Ev.slept ∉ (listen_iteration r speaking audio_buffer a b c (fun _ => none) false).2.1
  ∧ (listen_iteration r speaking audio_buffer a b c (fun _ => none) false).2.2
      = LoopControl.keepGoing
  ∧ (r.restart_count < r.max_restarts →
      listen_iteration r speaking audio_buffer a b c engine true
        = ({ r with restart_count := r.restart_count + 1 }, [Ev.slept],
            LoopControl.keepGoing))
  ∧ (r.max_restarts ≤ r.restart_count →
      listen_iteration r speaking audio_buffer a b c engine true
        = (r, [], LoopControl.fatal)) := by
  refine ⟨?_, ?_, ?_, ?_, ?_⟩
  · simp [listen_iteration]
  · simpa [listen_iteration] using
      slept_notin_processChunk speaking audio_buffer a b c (fun _ => none)
  · simp [listen_iteration]
  · intro h
    simp [listen_iteration, h]
  · intro h
    simp [listen_iteration, not_lt.mpr h]

/-- Witness for C8 (amended): counter 0 of budget 3, an escaping exception
is retried with a backoff sleep. -/
theorem C8_witness :
    (⟨0, 3⟩ : RecoveryState).restart_count < (⟨0, 3⟩ : RecoveryState).max_restarts
  ∧ listen_iteration ⟨0, 3⟩ false [] 0 0 0 (fun _ => some []) true
      = (⟨1, 3⟩, [Ev.slept], LoopControl.keepGoing) :=
  ⟨by decide,
    (C8_bounded_retry ⟨0, 3⟩ false [] 0 0 0 (fun _ => some [])).2.2.2.1 (by decide)⟩

/-- Counterexample to claim C9 as stated: after shutdown, a speak call with
blocking = true still runs _speak_blocking on the calling thread (ai.py
221-223 contain no shutdown check), so a new playback is started. -/
theorem C9_counterexample :
    (PiperTTSState.shutdownTTS ⟨[], false, false⟩).shutdown_flag = true
  ∧ TEv.playbackStart (("hi").toList) ∈
      ((PiperTTSState.shutdownTTS ⟨[], false, false⟩).speak (("hi").toList) true true).2 := by
  refine ⟨rfl, ?_⟩
  simp [PiperTTSState.shutdownTTS, PiperTTSState.speak, speakBlocking]

/-- Claim C9 (amended): after shutdown, a non-blocking speak call produces
no playback on the calling thread (it only enqueues), and the worker never
runs again: with shutdown_flag set, a worker iteration emits no events and
exits, both on the state left by the speak call and on any post-shutdown
state, so the queued text is never played and the worker is not
resurrected.  A blocking speak call, by contrast, still plays (see the
counterexample). -/
theorem C9_shutdown_no_playback (st : PiperTTSState) (t : List Char) (ok : Bool)
    (okf : List Char → Bool) (h : st.shutdown_flag = true) :
    (st.speak t false ok).2 = []
  ∧ (st.speak t false ok).1.shutdown_flag = true
  ∧ (workerIter okf (st.speak t false ok).1).2.1 = []
  ∧ (workerIter okf (st.speak t false ok).1).2.2 = false
  ∧ (workerIter okf st).2.1 = []
  ∧ (workerIter okf st).2.2 = false := by
  refine ⟨?_, ?_, ?_, ?_, ?_, ?_⟩ <;>
    simp [PiperTTSState.speak, workerIter, h]

/-- Witness for C9 (amended) on a freshly shut-down state. -/
theorem C9_witness :
    (⟨[], false, true⟩ : PiperTTSState).shutdown_flag = true
  ∧ ((⟨[], false, true⟩ : PiperTTSState).speak (("hi").toList) false true).2 = []
  ∧ (workerIter (fun _ => true)
      ((⟨[], false, true⟩ : PiperTTSState).speak (("hi").toList) false true).1).2.2 = false :=
  ⟨rfl,
    (C9_shutdown_no_playback ⟨[], false, true⟩ (("hi").toList) true (fun _ => true) rfl).1,
    (C9_shutdown_no_playback ⟨[], false, true⟩ (("hi").toList) true (fun _ => true) rfl).2.2.2.1⟩

/-- Claim C10: an utterance whose lower-cased stripped text contains the
activation phrase, is not exactly the phrase, and becomes empty once every
occurrence of the phrase is removed (and stripped), makes handle_command
return through the silent early-return path: no acknowledgment, no handler
dispatch, no fallback.  Hypotheses: the configured phrase is lower-case
(as the default configuration is) and the detector stores that same
phrase. -/
theorem C10_bare_double_wake_silent (w : List Char) (d : WakeWordDetector)
    (text : List Char) (now : Int)
    (hdw : d.wake_word = w)
    (hin : containsSub w (strip (lower text)) = true)
    (hne : strip (lower text) ≠ w)
    (hrep : strip (replaceAll w (strip (lower text))) = []) :
    (handle_command w d text now).2 = HCResult.silentReturn := by
  have ht_ne : strip (lower text) ≠ [] := by
    intro hc
    rw [hc] at hin
    have hwnil : w = [] := by
      simpa [containsSub, List.isEmpty_iff] using hin
    exact hne (by rw [hc, hwnil])
  have hcheck : d.check (strip (lower text)) now
      = ({ d with is_awake := true, last_wake_time := now }, true) := by
    unfold WakeWordDetector.check
    simp only [strip_lower_stable, hdw, hin]
    simp
  unfold handle_command
  rw [if_neg ht_ne, hcheck]
  simp only [Bool.true_eq_false, if_false]
  rw [if_pos ⟨hrep, hne⟩]

/-- Witness for C10: the phrase assistant spoken twice in a row. -/
theorem C10_witness :
    (WakeWordDetector.init (("assistant").toList) 0 10).wake_word = ("assistant").toList
  ∧ containsSub (("assistant").toList)
      (strip (lower (("assistant assistant").toList))) = true
  ∧ strip (lower (("assistant assistant").toList)) ≠ ("assistant").toList
  ∧ strip (replaceAll (("assistant").toList)
      (strip (lower (("assistant assistant").toList)))) = []
  ∧ (handle_command (("assistant").toList)
      (WakeWordDetector.init (("assistant").toList) 0 10)
      (("assistant assistant").toList) 0).2 = HCResult.silentReturn :=
  ⟨by decide, by decide, by decide, by decide,
    C10_bare_double_wake_silent (("assistant").toList)
      (WakeWordDetector.init (("assistant").toList) 0 10)
      (("assistant assistant").toList) 0 (by decide) (by decide) (by decide) (by decide)⟩

end VoiceAssistance
